import Mathlib

/-!
Shallow embedding of `src/api/chat_completion.rs` (an OpenAI chat-completion
request/response model built with serde and derive_builder).

JSON values are modelled by the inductive `Json`; serde `Serialize` derives
become `encode` functions producing `Json`, serde `Deserialize` derives become
`decode` functions returning `Except DecodeError _`, and the derive_builder
builder becomes a structure of `Option` fields with a `build` function.
-/

/-- JSON values (the image of serde_json::Value needed by this module). -/
inductive Json where
  | null
  | bool (b : Bool)
  | num (n : Int)
  | str (s : String)
  | arr (xs : List Json)
  | obj (fields : List (String × Json))

/-- Field lookup on a JSON object (first occurrence), `none` on non-objects. -/
def Json.lookupKey : Json → String → Option Json
  | .obj fs, k => List.lookup k fs
  | _, _ => none

/-- serde `skip_serializing_if = "Option::is_none"`: emit the field only when present. -/
def optField (name : String) : Option Json → List (String × Json)
  | some j => [(name, j)]
  | none => []

/-- serde `skip_serializing_if = "Vec::is_empty"`: emit the field only when non-empty. -/
def vecField (name : String) (xs : List Json) : List (String × Json) :=
  if xs.isEmpty then [] else [(name, Json.arr xs)]

/-- `ToolType`: the only tool type is `Function` (wire string "function"). -/
inductive ToolType where
  | Function
deriving DecidableEq

def ToolType.encode : ToolType → Json
  | .Function => Json.str "function"

/-- `ChatCompleteModel`: closed set of model identifiers; `GPT3Turbo` is the
`#[default]` variant. -/
inductive ChatCompleteModel where
  | GPT3Turbo
  | GPT3TurboInstruct
  | GPT4Turbo
  | GPT4TurboVersion
deriving DecidableEq

/-- The `#[serde(rename = ...)]` wire string of each model variant. -/
def ChatCompleteModel.toWire : ChatCompleteModel → String
  | .GPT3Turbo => "gpt-3.5-turbo-1106"
  | .GPT3TurboInstruct => "gpt-3.5-turbo-instruct"
  | .GPT4Turbo => "gpt-4-1106-preview"
  | .GPT4TurboVersion => "gpt-4-1106-vision-preview"

/-- Inverse of the model rename table, used by `Deserialize`. -/
def ChatCompleteModel.fromWire : String → Option ChatCompleteModel
  | "gpt-3.5-turbo-1106" => some .GPT3Turbo
  | "gpt-3.5-turbo-instruct" => some .GPT3TurboInstruct
  | "gpt-4-1106-preview" => some .GPT4Turbo
  | "gpt-4-1106-vision-preview" => some .GPT4TurboVersion
  | _ => none

/-- `ChatResponseFormat`, `rename_all = "snake_case"`, default `Json`. -/
inductive ChatResponseFormat where
  | Text
  | Json
deriving DecidableEq

def chatResponseFormatEncode : ChatResponseFormat → Json
  | ChatResponseFormat.Text => Json.str "text"
  | ChatResponseFormat.Json => Json.str "json"

structure ChatResponseFormatObject where
  rtype : ChatResponseFormat

def ChatResponseFormatObject.encode (o : ChatResponseFormatObject) : Json :=
  Json.obj [("type", chatResponseFormatEncode o.rtype)]

/-- `FinishReason`, `rename_all = "snake_case"`, `#[default] Stop`. -/
inductive FinishReason where
  | Stop
  | Length
  | ContentFilter
  | ToolCalls
deriving DecidableEq

structure FunctionCall where
  name : String
  arguments : String
deriving DecidableEq

def FunctionCall.encode (f : FunctionCall) : Json :=
  Json.obj [("name", Json.str f.name), ("arguments", Json.str f.arguments)]

structure ToolCalls where
  id : String
  rtype : ToolType
  function : FunctionCall
deriving DecidableEq

def ToolCalls.encode (t : ToolCalls) : Json :=
  Json.obj [("id", Json.str t.id), ("type", t.rtype.encode), ("function", t.function.encode)]

structure FunctionInfo where
  description : String
  name : String
  parameters : Json

def FunctionInfo.encode (f : FunctionInfo) : Json :=
  Json.obj [("description", Json.str f.description), ("name", Json.str f.name),
    ("parameters", f.parameters)]

structure Tool where
  rtype : String
  function : FunctionInfo

def Tool.encode (t : Tool) : Json :=
  Json.obj [("type", Json.str t.rtype), ("function", t.function.encode)]

/-- `ToolChoice`, `rename_all = "snake_case"`: unit variants serialize as the
strings "none"/"auto"; the struct variant is externally tagged under "function". -/
inductive ToolChoice where
  | None
  | Auto
  | Function (rtype : ToolType) (name : String)
deriving DecidableEq

def ToolChoice.encode : ToolChoice → Json
  | .None => Json.str "none"
  | .Auto => Json.str "auto"
  | .Function t name =>
      Json.obj [("function", Json.obj [("type", t.encode), ("name", Json.str name)])]

structure SystemMessage where
  content : String
  name : Option String

def SystemMessage.encodeFields (m : SystemMessage) : List (String × Json) :=
  [("content", Json.str m.content)] ++ optField "name" (m.name.map Json.str)

structure UserMessage where
  content : String
  name : Option String

def UserMessage.encodeFields (m : UserMessage) : List (String × Json) :=
  [("content", Json.str m.content)] ++ optField "name" (m.name.map Json.str)

structure AssistantMessage where
  content : String
  name : Option String
  tool_calls : List ToolCalls
deriving DecidableEq

def AssistantMessage.encodeFields (m : AssistantMessage) : List (String × Json) :=
  [("content", Json.str m.content)] ++ optField "name" (m.name.map Json.str) ++
    vecField "tool_calls" (m.tool_calls.map ToolCalls.encode)

/-- Standalone `Serialize` of `AssistantMessage` (no role tag). -/
def AssistantMessage.encode (m : AssistantMessage) : Json :=
  Json.obj m.encodeFields

structure ToolMessage where
  content : String
  tool_call_id : String

def ToolMessage.encodeFields (m : ToolMessage) : List (String × Json) :=
  [("content", Json.str m.content), ("tool_call_id", Json.str m.tool_call_id)]

/-- `ChatCompletionMessage`, internally tagged with `tag = "role"`,
`rename_all = "snake_case"`. -/
inductive ChatCompletionMessage where
  | System (m : SystemMessage)
  | User (m : UserMessage)
  | Assistant (m : AssistantMessage)
  | Tool (m : ToolMessage)

/-- Internally-tagged serialization: the "role" tag followed by the variant's
own fields (with their omission rules). -/
def ChatCompletionMessage.encode : ChatCompletionMessage → Json
  | .System m => Json.obj (("role", Json.str "system") :: m.encodeFields)
  | .User m => Json.obj (("role", Json.str "user") :: m.encodeFields)
  | .Assistant m => Json.obj (("role", Json.str "assistant") :: m.encodeFields)
  | .Tool m => Json.obj (("role", Json.str "tool") :: m.encodeFields)

/-- `ChatCompletionMessage::get_name`: `(!name.is_empty()).then(|| name.into())`. -/
def ChatCompletionMessage.get_name (name : String) : Option String :=
  if name.isEmpty then none else some name

def ChatCompletionMessage.new_system (content : String) (name : String) : ChatCompletionMessage :=
  ChatCompletionMessage.System
    { content := content, name := ChatCompletionMessage.get_name name }

def ChatCompletionMessage.new_user (content : String) (name : String) : ChatCompletionMessage :=
  ChatCompletionMessage.User
    { content := content, name := ChatCompletionMessage.get_name name }

/-- `ChatCompletionRequest` with the field types of the Rust struct
(usize → Nat, i32 → Int). -/
structure ChatCompletionRequest where
  messages : List ChatCompletionMessage
  model : ChatCompleteModel
  frequency_penalty : Option Int
  max_tokens : Option Nat
  n : Option Nat
  presence_penalty : Option Nat
  response_format : Option ChatResponseFormatObject
  seed : Option Nat
  stop : Option String
  stream : Option Bool
  temperature : Option Int
  top_p : Option Int
  tools : List Tool
  tool_choice : Option ToolChoice
  user : Option String

/-- Serialization of the request: fields in declaration order, each `Option`
field guarded by `skip_serializing_if = "Option::is_none"` and `tools` by
`skip_serializing_if = "Vec::is_empty"`. -/
def ChatCompletionRequest.encodeFields (r : ChatCompletionRequest) : List (String × Json) :=
  [("messages", Json.arr (r.messages.map ChatCompletionMessage.encode))] ++
  [("model", Json.str r.model.toWire)] ++
  optField "frequency_penalty" (r.frequency_penalty.map Json.num) ++
  optField "max_tokens" (r.max_tokens.map fun k => Json.num (Int.ofNat k)) ++
  optField "n" (r.n.map fun k => Json.num (Int.ofNat k)) ++
  optField "presence_penalty" (r.presence_penalty.map fun k => Json.num (Int.ofNat k)) ++
  optField "response_format" (r.response_format.map ChatResponseFormatObject.encode) ++
  optField "seed" (r.seed.map fun k => Json.num (Int.ofNat k)) ++
  optField "stop" (r.stop.map Json.str) ++
  optField "stream" (r.stream.map Json.bool) ++
  optField "temperature" (r.temperature.map Json.num) ++
  optField "top_p" (r.top_p.map Json.num) ++
  vecField "tools" (r.tools.map Tool.encode) ++
  optField "tool_choice" (r.tool_choice.map ToolChoice.encode) ++
  optField "user" (r.user.map Json.str)

def ChatCompletionRequest.encode (r : ChatCompletionRequest) : Json :=
  Json.obj r.encodeFields

/-- Builder error; the spec's taxonomy calls derive_builder's
uninitialized-field failure `MissingRequiredField`. -/
inductive BuildError where
  | MissingRequiredField (field : String)
deriving DecidableEq

/-- The derive_builder-generated builder: every field wrapped in `Option`
("unset" marker); `strip_option` setters store `some (some v)`. -/
structure ChatCompletionRequestBuilder where
  messages : Option (List ChatCompletionMessage) := none
  model : Option ChatCompleteModel := none
  frequency_penalty : Option (Option Int) := none
  max_tokens : Option (Option Nat) := none
  n : Option (Option Nat) := none
  presence_penalty : Option (Option Nat) := none
  response_format : Option (Option ChatResponseFormatObject) := none
  seed : Option (Option Nat) := none
  stop : Option (Option String) := none
  stream : Option (Option Bool) := none
  temperature : Option (Option Int) := none
  top_p : Option (Option Int) := none
  tools : Option (List Tool) := none
  tool_choice : Option (Option ToolChoice) := none
  user : Option (Option String) := none

/-- `build()`: `messages` has no `#[builder(default)]`, so it is required;
every other field falls back to its `Default` (default model, `None`, `vec![]`). -/
def ChatCompletionRequestBuilder.build (b : ChatCompletionRequestBuilder) :
    Except BuildError ChatCompletionRequest :=
  match b.messages with
  | none => Except.error (BuildError.MissingRequiredField "messages")
  | some msgs =>
      Except.ok
        { messages := msgs
          model := b.model.getD ChatCompleteModel.GPT3Turbo
          frequency_penalty := b.frequency_penalty.getD none
          max_tokens := b.max_tokens.getD none
          n := b.n.getD none
          presence_penalty := b.presence_penalty.getD none
          response_format := b.response_format.getD none
          seed := b.seed.getD none
          stop := b.stop.getD none
          stream := b.stream.getD none
          temperature := b.temperature.getD none
          top_p := b.top_p.getD none
          tools := b.tools.getD []
          tool_choice := b.tool_choice.getD none
          user := b.user.getD none }

/-- `ChatCompletionChoice`: finish_reason, index, message (assistant). -/
structure ChatCompletionChoice where
  finish_reason : FinishReason
  index : Nat
  message : AssistantMessage
deriving DecidableEq

structure ChatCompletionUsage where
  completion_tokens : Nat
  prompt_tokens : Nat
  total_tokens : Nat
deriving DecidableEq

/-- `ChatCompletionResponse`: the typed decode target. -/
structure ChatCompletionResponse where
  id : String
  choices : List ChatCompletionChoice
  created : Nat
  model : ChatCompleteModel
  system_fingerprint : String
  object : String
  usage : ChatCompletionUsage
deriving DecidableEq

/-- Decode errors, per the spec's taxonomy: a required field absent is
`MissingField`, a field of the wrong shape is `TypeMismatch`. -/
inductive DecodeError where
  | MissingField (name : String)
  | TypeMismatch (name : String)
deriving DecidableEq

/-- A required field of arbitrary JSON type. -/
def getField (fs : List (String × Json)) (name : String) : Except DecodeError Json :=
  match List.lookup name fs with
  | some j => Except.ok j
  | none => Except.error (DecodeError.MissingField name)

/-- A required `String` field. -/
def getStr (fs : List (String × Json)) (name : String) : Except DecodeError String :=
  match List.lookup name fs with
  | some (Json.str s) => Except.ok s
  | some _ => Except.error (DecodeError.TypeMismatch name)
  | none => Except.error (DecodeError.MissingField name)

/-- A required `usize` field (non-negative JSON number). -/
def getNat (fs : List (String × Json)) (name : String) : Except DecodeError Nat :=
  match List.lookup name fs with
  | some (Json.num k) =>
      if k < 0 then Except.error (DecodeError.TypeMismatch name) else Except.ok k.toNat
  | some _ => Except.error (DecodeError.TypeMismatch name)
  | none => Except.error (DecodeError.MissingField name)

/-- An `Option<String>` field: serde treats a missing `Option` field as `None`
(no `#[serde(default)]` needed), and JSON `null` also decodes to `None`. -/
def getOptStr (fs : List (String × Json)) (name : String) :
    Except DecodeError (Option String) :=
  match List.lookup name fs with
  | none => Except.ok none
  | some Json.null => Except.ok none
  | some (Json.str s) => Except.ok (some s)
  | some _ => Except.error (DecodeError.TypeMismatch name)

def decodeList {α : Type} (d : Json → Except DecodeError α) :
    List Json → Except DecodeError (List α)
  | [] => Except.ok []
  | j :: js => do
      let x ← d j
      let xs ← decodeList d js
      Except.ok (x :: xs)

def ToolType.decode (name : String) : Json → Except DecodeError ToolType
  | Json.str "function" => Except.ok ToolType.Function
  | _ => Except.error (DecodeError.TypeMismatch name)

def FunctionCall.decode : Json → Except DecodeError FunctionCall
  | Json.obj fs => do
      let nm ← getStr fs "name"
      let arguments ← getStr fs "arguments"
      Except.ok { name := nm, arguments := arguments }
  | _ => Except.error (DecodeError.TypeMismatch "function")

def ToolCalls.decode : Json → Except DecodeError ToolCalls
  | Json.obj fs => do
      let id ← getStr fs "id"
      let tj ← getField fs "type"
      let rtype ← ToolType.decode "type" tj
      let fj ← getField fs "function"
      let function ← FunctionCall.decode fj
      Except.ok { id := id, rtype := rtype, function := function }
  | _ => Except.error (DecodeError.TypeMismatch "tool_calls")

/-- The required `tool_calls: Vec<ToolCalls>` field: absent is a missing-field
error (a `Vec` field has no implicit serde default). -/
def getToolCalls (fs : List (String × Json)) : Except DecodeError (List ToolCalls) :=
  match List.lookup "tool_calls" fs with
  | some (Json.arr js) => decodeList ToolCalls.decode js
  | some _ => Except.error (DecodeError.TypeMismatch "tool_calls")
  | none => Except.error (DecodeError.MissingField "tool_calls")

/-- `Deserialize` for `AssistantMessage`: `content` and `tool_calls` are
required; `name` is an `Option`. -/
def AssistantMessage.decode : Json → Except DecodeError AssistantMessage
  | Json.obj fs => do
      let content ← getStr fs "content"
      let nm ← getOptStr fs "name"
      let tool_calls ← getToolCalls fs
      Except.ok { content := content, name := nm, tool_calls := tool_calls }
  | _ => Except.error (DecodeError.TypeMismatch "message")

def FinishReason.decode (name : String) : Json → Except DecodeError FinishReason
  | Json.str "stop" => Except.ok FinishReason.Stop
  | Json.str "length" => Except.ok FinishReason.Length
  | Json.str "content_filter" => Except.ok FinishReason.ContentFilter
  | Json.str "tool_calls" => Except.ok FinishReason.ToolCalls
  | _ => Except.error (DecodeError.TypeMismatch name)

/-- `Deserialize` for `ChatCompletionChoice`: `finish_reason`, `index` and
`message` are all required. -/
def ChatCompletionChoice.decodeFields (fs : List (String × Json)) :
    Except DecodeError ChatCompletionChoice := do
  let fj ← getField fs "finish_reason"
  let finish_reason ← FinishReason.decode "finish_reason" fj
  let index ← getNat fs "index"
  let mj ← getField fs "message"
  let message ← AssistantMessage.decode mj
  Except.ok { finish_reason := finish_reason, index := index, message := message }

def ChatCompletionChoice.decode : Json → Except DecodeError ChatCompletionChoice
  | Json.obj fs => ChatCompletionChoice.decodeFields fs
  | _ => Except.error (DecodeError.TypeMismatch "choices")

def ChatCompleteModel.decode (name : String) : Json → Except DecodeError ChatCompleteModel
  | Json.str s =>
      match ChatCompleteModel.fromWire s with
      | some m => Except.ok m
      | none => Except.error (DecodeError.TypeMismatch name)
  | _ => Except.error (DecodeError.TypeMismatch name)

def ChatCompletionUsage.decode : Json → Except DecodeError ChatCompletionUsage
  | Json.obj fs => do
      let completion_tokens ← getNat fs "completion_tokens"
      let prompt_tokens ← getNat fs "prompt_tokens"
      let total_tokens ← getNat fs "total_tokens"
      Except.ok
        { completion_tokens := completion_tokens
          prompt_tokens := prompt_tokens
          total_tokens := total_tokens }
  | _ => Except.error (DecodeError.TypeMismatch "usage")

/-- The wire names of the modeled `ChatCompletionResponse` fields. -/
def responseFieldNames : List String :=
  ["id", "choices", "created", "model", "system_fingerprint", "object", "usage"]

/-- `Deserialize` for `ChatCompletionResponse`: every declared field is
required (none is an `Option`, none carries `#[serde(default)]`); fields not
modeled are ignored. -/
def getChoices (fs : List (String × Json)) : Except DecodeError (List ChatCompletionChoice) :=
  match List.lookup "choices" fs with
  | some (Json.arr js) => decodeList ChatCompletionChoice.decode js
  | some _ => Except.error (DecodeError.TypeMismatch "choices")
  | none => Except.error (DecodeError.MissingField "choices")

def ChatCompletionResponse.decodeFields (fs : List (String × Json)) :
    Except DecodeError ChatCompletionResponse := do
  let id ← getStr fs "id"
  let choices ← getChoices fs
  let created ← getNat fs "created"
  let model ← getField fs "model"
  let model ← ChatCompleteModel.decode "model" model
  let system_fingerprint ← getStr fs "system_fingerprint"
  let object ← getStr fs "object"
  let uj ← getField fs "usage"
  let usage ← ChatCompletionUsage.decode uj
  Except.ok
    { id := id
      choices := choices
      created := created
      model := model
      system_fingerprint := system_fingerprint
      object := object
      usage := usage }

def ChatCompletionResponse.decode : Json → Except DecodeError ChatCompletionResponse
  | Json.obj fs => ChatCompletionResponse.decodeFields fs
  | _ => Except.error (DecodeError.TypeMismatch "response")

/-! ### Lemmas about field lookup in encoded objects -/

theorem lookup_cons_ne (n k : String) (v : Json) (rest : List (String × Json))
    (h : n ≠ k) : List.lookup n ((k, v) :: rest) = List.lookup n rest := by
  have hb : (n == k) = false := beq_eq_false_iff_ne.mpr h
  simp [List.lookup, hb]

theorem lookup_optField_skip (n name : String) (v : Option Json)
    (rest : List (String × Json)) (h : n ≠ name) :
    List.lookup n (optField name v ++ rest) = List.lookup n rest := by
  have hb : (n == name) = false := beq_eq_false_iff_ne.mpr h
  cases v <;> simp [optField, List.lookup, hb]

theorem lookup_vecField_skip (n name : String) (xs : List Json)
    (rest : List (String × Json)) (h : n ≠ name) :
    List.lookup n (vecField name xs ++ rest) = List.lookup n rest := by
  have hb : (n == name) = false := beq_eq_false_iff_ne.mpr h
  unfold vecField
  split <;> simp [List.lookup, hb]

theorem lookup_middle_ne (l1 l2 : List (String × Json)) (k : String) (v : Json)
    (n : String) (h : n ≠ k) :
    List.lookup n (l1 ++ (k, v) :: l2) = List.lookup n (l1 ++ l2) := by
  have hb : (n == k) = false := beq_eq_false_iff_ne.mpr h
  induction l1 with
  | nil => simp [List.lookup, hb]
  | cons p t ih =>
      obtain ⟨a, b⟩ := p
      by_cases hna : n = a
      · subst hna; simp [List.lookup]
      · have hba : (n == a) = false := beq_eq_false_iff_ne.mpr hna
        simp [List.lookup, hba, ih]

/-! ### Decoder helper lemmas -/

theorem getStr_middle (l1 l2 : List (String × Json)) (k : String) (v : Json)
    (n : String) (h : n ≠ k) :
    getStr (l1 ++ (k, v) :: l2) n = getStr (l1 ++ l2) n := by
  unfold getStr
  rw [lookup_middle_ne l1 l2 k v n h]

theorem getNat_middle (l1 l2 : List (String × Json)) (k : String) (v : Json)
    (n : String) (h : n ≠ k) :
    getNat (l1 ++ (k, v) :: l2) n = getNat (l1 ++ l2) n := by
  unfold getNat
  rw [lookup_middle_ne l1 l2 k v n h]

theorem getField_middle (l1 l2 : List (String × Json)) (k : String) (v : Json)
    (n : String) (h : n ≠ k) :
    getField (l1 ++ (k, v) :: l2) n = getField (l1 ++ l2) n := by
  unfold getField
  rw [lookup_middle_ne l1 l2 k v n h]

/-- Decoding the response fields only looks up the modeled wire names, so an
extra entry under any other name is invisible to the decoder. -/
theorem decodeFields_ignores_unknown (l1 l2 : List (String × Json)) (k : String)
    (v : Json) (hk : k ∉ responseFieldNames) :
    ChatCompletionResponse.decodeFields (l1 ++ (k, v) :: l2) =
      ChatCompletionResponse.decodeFields (l1 ++ l2) := by
  have h1 : "id" ≠ k := by rintro rfl; simp [responseFieldNames] at hk
  have h2 : "choices" ≠ k := by rintro rfl; simp [responseFieldNames] at hk
  have h3 : "created" ≠ k := by rintro rfl; simp [responseFieldNames] at hk
  have h4 : "model" ≠ k := by rintro rfl; simp [responseFieldNames] at hk
  have h5 : "system_fingerprint" ≠ k := by rintro rfl; simp [responseFieldNames] at hk
  have h6 : "object" ≠ k := by rintro rfl; simp [responseFieldNames] at hk
  have h7 : "usage" ≠ k := by rintro rfl; simp [responseFieldNames] at hk
  have hch : getChoices (l1 ++ (k, v) :: l2) = getChoices (l1 ++ l2) := by
    unfold getChoices
    rw [lookup_middle_ne l1 l2 k v "choices" h2]
  unfold ChatCompletionResponse.decodeFields
  rw [getStr_middle l1 l2 k v "id" h1, hch,
    getNat_middle l1 l2 k v "created" h3, getField_middle l1 l2 k v "model" h4,
    getStr_middle l1 l2 k v "system_fingerprint" h5, getStr_middle l1 l2 k v "object" h6,
    getField_middle l1 l2 k v "usage" h7]

theorem choice_decode_missing_fr (cfs : List (String × Json))
    (hc : List.lookup "finish_reason" cfs = none) :
    ChatCompletionChoice.decode (Json.obj cfs) =
      Except.error (DecodeError.MissingField "finish_reason") := by
  simp [ChatCompletionChoice.decode, ChatCompletionChoice.decodeFields, getField, hc,
    Bind.bind, Except.bind]

theorem response_not_ok_of_choices_error (rfs : List (String × Json)) (e : DecodeError)
    (hch : getChoices rfs = Except.error e) :
    ∀ r, ChatCompletionResponse.decodeFields rfs ≠ Except.ok r := by
  intro r hok
  unfold ChatCompletionResponse.decodeFields at hok
  cases hid : getStr rfs "id" <;> simp [hid, hch, Bind.bind, Except.bind] at hok

theorem assistant_decode_missing_tc (fs : List (String × Json))
    (hf : List.lookup "tool_calls" fs = none) :
    ∀ a, AssistantMessage.decode (Json.obj fs) ≠ Except.ok a := by
  intro a hok
  have htc : getToolCalls fs = Except.error (DecodeError.MissingField "tool_calls") := by
    unfold getToolCalls
    rw [hf]
  simp only [AssistantMessage.decode] at hok
  cases hc : getStr fs "content" <;> cases hn : getOptStr fs "name" <;>
    simp [hc, hn, htc, Bind.bind, Except.bind] at hok

theorem assistant_encodeFields_no_tc (m : AssistantMessage) (hm : m.tool_calls = []) :
    List.lookup "tool_calls" m.encodeFields = none := by
  cases hn : m.name <;>
    simp [AssistantMessage.encodeFields, hm, hn, vecField, optField, List.lookup]

/-! ### Concrete wire fixtures -/

/-- A well-formed choice object as sent by the service. -/
def choiceFullFields : List (String × Json) :=
  [("finish_reason", Json.str "stop"), ("index", Json.num 0),
   ("message", Json.obj [("content", Json.str "hi"), ("tool_calls", Json.arr [])])]

/-- The same choice object with `finish_reason` removed. -/
def choiceNoFRFields : List (String × Json) :=
  [("index", Json.num 0),
   ("message", Json.obj [("content", Json.str "hi"), ("tool_calls", Json.arr [])])]

/-- The non-choice required response fields. -/
def respTailFields : List (String × Json) :=
  [("created", Json.num 1700000000),
   ("model", Json.str "gpt-3.5-turbo-1106"),
   ("system_fingerprint", Json.str "fp"),
   ("object", Json.str "chat.completion"),
   ("usage", Json.obj [("completion_tokens", Json.num 1), ("prompt_tokens", Json.num 2),
      ("total_tokens", Json.num 3)])]

/-- A complete, well-formed response object. -/
def respFullFields : List (String × Json) :=
  ("id", Json.str "chatcmpl-1") :: ("choices", Json.arr [Json.obj choiceFullFields]) ::
    respTailFields

/-- A response object whose only choice lacks `finish_reason`. -/
def respNoFinishReason : List (String × Json) :=
  ("id", Json.str "chatcmpl-1") :: ("choices", Json.arr [Json.obj choiceNoFRFields]) ::
    respTailFields

/-- A response object with every required field except `choices`. -/
def respNoChoices : List (String × Json) :=
  ("id", Json.str "chatcmpl-1") :: respTailFields

/-- The typed value `respFullFields` decodes to. -/
def respFullDecoded : ChatCompletionResponse :=
  { id := "chatcmpl-1"
    choices := [{ finish_reason := FinishReason.Stop
                  index := 0
                  message := { content := "hi", name := none, tool_calls := [] } }]
    created := 1700000000
    model := ChatCompleteModel.GPT3Turbo
    system_fingerprint := "fp"
    object := "chat.completion"
    usage := { completion_tokens := 1, prompt_tokens := 2, total_tokens := 3 } }

/-- A request mirroring the repository's serialization test: a function
tool_choice with every optional scalar unset. -/
def demoRequest : ChatCompletionRequest :=
  { messages := []
    model := ChatCompleteModel.GPT3Turbo
    frequency_penalty := none
    max_tokens := none
    n := none
    presence_penalty := none
    response_format := none
    seed := none
    stop := none
    stream := none
    temperature := none
    top_p := none
    tools := []
    tool_choice := some (ToolChoice.Function ToolType.Function "my_function")
    user := none }

/-- C1 counterexample: the concrete response whose single choice lacks
`finish_reason` does not decode to choices with `finish_reason = Stop`; it
fails with a missing-field error. -/
theorem C1_counterexample :
    ChatCompletionResponse.decode (Json.obj respNoFinishReason) =
      Except.error (DecodeError.MissingField "finish_reason") ∧
    (ChatCompletionResponse.decode (Json.obj respNoFinishReason)).isOk = false :=
  ⟨rfl, rfl⟩

/-- C1 (amended): decoding a choice object that lacks `finish_reason` fails
with `MissingField "finish_reason"` (it is not defaulted to `Stop`), and a
response containing such a choice never decodes successfully. -/
theorem C1_missing_finish_reason_is_error (cfs rfs : List (String × Json))
    (hc : List.lookup "finish_reason" cfs = none)
    (hr : List.lookup "choices" rfs = some (Json.arr [Json.obj cfs])) :
    ChatCompletionChoice.decode (Json.obj cfs) =
      Except.error (DecodeError.MissingField "finish_reason") ∧
    ∀ r, ChatCompletionResponse.decode (Json.obj rfs) ≠ Except.ok r := by
  have h1 := choice_decode_missing_fr cfs hc
  refine ⟨h1, ?_⟩
  have hch : getChoices rfs = Except.error (DecodeError.MissingField "finish_reason") := by
    unfold getChoices
    rw [hr]
    simp [decodeList, h1, Bind.bind, Except.bind]
  intro r hok
  exact response_not_ok_of_choices_error rfs _ hch r hok

/-- C1 witness: the amended theorem applied to the concrete fixtures. -/
theorem C1_missing_finish_reason_is_error_witness :
    ChatCompletionChoice.decode (Json.obj choiceNoFRFields) =
      Except.error (DecodeError.MissingField "finish_reason") ∧
    ChatCompletionResponse.decode (Json.obj respNoFinishReason) ≠
      Except.ok respFullDecoded :=
  ⟨(C1_missing_finish_reason_is_error choiceNoFRFields respNoFinishReason rfl rfl).1,
   (C1_missing_finish_reason_is_error choiceNoFRFields respNoFinishReason rfl rfl).2
     respFullDecoded⟩

/-- C2 counterexample: the concrete response with every required field except
`choices` fails to decode instead of yielding an empty choices sequence. -/
theorem C2_counterexample :
    ChatCompletionResponse.decode (Json.obj respNoChoices) =
      Except.error (DecodeError.MissingField "choices") ∧
    (ChatCompletionResponse.decode (Json.obj respNoChoices)).isOk = false :=
  ⟨rfl, rfl⟩

/-- C2 (amended): decoding a response object with no `choices` field never
succeeds; the absence of `choices` is a decode error, not an empty sequence. -/
theorem C2_missing_choices_is_error (rfs : List (String × Json))
    (h : List.lookup "choices" rfs = none) :
    ∀ r, ChatCompletionResponse.decode (Json.obj rfs) ≠ Except.ok r := by
  have hch : getChoices rfs = Except.error (DecodeError.MissingField "choices") := by
    unfold getChoices
    rw [h]
  intro r hok
  exact response_not_ok_of_choices_error rfs _ hch r hok

/-- C2 witness: the amended theorem applied to the concrete fixture. -/
theorem C2_missing_choices_is_error_witness :
    ChatCompletionResponse.decode (Json.obj respNoChoices) ≠ Except.ok respFullDecoded :=
  C2_missing_choices_is_error respNoChoices rfl respFullDecoded

/-- C3: `build()` fails, with a missing-required-field error naming
`messages`, exactly when `messages` was never supplied; when it was supplied
the build succeeds and every unset field takes its documented default
(default model, empty tools, absent optional fields). -/
theorem C3_build_requires_only_messages (b : ChatCompletionRequestBuilder) :
    ((∃ e, b.build = Except.error e) ↔ b.messages = none) ∧
    (b.messages = none →
      b.build = Except.error (BuildError.MissingRequiredField "messages")) ∧
    (∀ msgs, b.messages = some msgs →
      ∃ r, b.build = Except.ok r ∧
        r.messages = msgs ∧
        r.model = b.model.getD ChatCompleteModel.GPT3Turbo ∧
        r.tools = b.tools.getD [] ∧
        r.frequency_penalty = b.frequency_penalty.getD none ∧
        r.max_tokens = b.max_tokens.getD none ∧
        r.n = b.n.getD none ∧
        r.presence_penalty = b.presence_penalty.getD none ∧
        r.response_format = b.response_format.getD none ∧
        r.seed = b.seed.getD none ∧
        r.stop = b.stop.getD none ∧
        r.stream = b.stream.getD none ∧
        r.temperature = b.temperature.getD none ∧
        r.top_p = b.top_p.getD none ∧
        r.tool_choice = b.tool_choice.getD none ∧
        r.user = b.user.getD none) := by
  cases hm : b.messages with
  | none =>
      refine ⟨⟨fun _ => rfl, fun _ => ?_⟩, fun _ => ?_, fun msgs hmm => ?_⟩
      · exact ⟨BuildError.MissingRequiredField "messages",
          by simp [ChatCompletionRequestBuilder.build, hm]⟩
      · simp [ChatCompletionRequestBuilder.build, hm]
      · exact Option.noConfusion hmm
  | some msgs =>
      refine ⟨⟨fun he => ?_, fun hn => ?_⟩, fun hn => ?_, fun ms hms => ?_⟩
      · obtain ⟨e, he⟩ := he
        simp [ChatCompletionRequestBuilder.build, hm] at he
      · exact Option.noConfusion hn
      · exact Option.noConfusion hn
      · obtain rfl : msgs = ms := Option.some.inj hms
        exact ⟨{ messages := msgs
                 model := b.model.getD ChatCompleteModel.GPT3Turbo
                 frequency_penalty := b.frequency_penalty.getD none
                 max_tokens := b.max_tokens.getD none
                 n := b.n.getD none
                 presence_penalty := b.presence_penalty.getD none
                 response_format := b.response_format.getD none
                 seed := b.seed.getD none
                 stop := b.stop.getD none
                 stream := b.stream.getD none
                 temperature := b.temperature.getD none
                 top_p := b.top_p.getD none
                 tools := b.tools.getD []
                 tool_choice := b.tool_choice.getD none
                 user := b.user.getD none },
          by simp [ChatCompletionRequestBuilder.build, hm],
          rfl, rfl, rfl, rfl, rfl, rfl, rfl, rfl, rfl, rfl, rfl, rfl, rfl, rfl, rfl⟩

/-- C3 witness: a builder with no fields set fails; a builder with only
`messages` set succeeds. -/
theorem C3_build_requires_only_messages_witness :
    ChatCompletionRequestBuilder.build {} =
      Except.error (BuildError.MissingRequiredField "messages") ∧
    (ChatCompletionRequestBuilder.build { messages := some [] }).isOk = true := by
  constructor
  · exact (C3_build_requires_only_messages {}).2.1 rfl
  · obtain ⟨r, hr, -⟩ :=
      (C3_build_requires_only_messages { messages := some [] }).2.2 [] rfl
    rw [hr]
    rfl

/-- C4: `new_system`/`new_user` with an empty name encode without a `name`
field; with a non-empty name the encoding carries exactly that string. -/
theorem C4_name_normalization (content nm : String) (h : nm ≠ "") :
    (ChatCompletionMessage.new_system content "").encode.lookupKey "name" = none ∧
    (ChatCompletionMessage.new_user content "").encode.lookupKey "name" = none ∧
    (ChatCompletionMessage.new_system content nm).encode.lookupKey "name" =
      some (Json.str nm) ∧
    (ChatCompletionMessage.new_user content nm).encode.lookupKey "name" =
      some (Json.str nm) := by
  have hne : nm.isEmpty = false := by
    cases hb : nm.isEmpty with
    | false => rfl
    | true => exact absurd ((String.isEmpty_iff nm).mp hb) h
  refine ⟨rfl, rfl, ?_, ?_⟩ <;>
    simp [ChatCompletionMessage.new_system, ChatCompletionMessage.new_user,
      ChatCompletionMessage.encode, ChatCompletionMessage.get_name, hne,
      SystemMessage.encodeFields, UserMessage.encodeFields, optField, Json.lookupKey,
      List.lookup]

/-- C4 witness: the theorem at the repository's own test inputs. -/
theorem C4_name_normalization_witness :
    ("zheng" : String) ≠ "" ∧
    (ChatCompletionMessage.new_system "hello" "").encode.lookupKey "name" = none ∧
    (ChatCompletionMessage.new_user "hello" "").encode.lookupKey "name" = none ∧
    (ChatCompletionMessage.new_system "hello" "zheng").encode.lookupKey "name" =
      some (Json.str "zheng") ∧
    (ChatCompletionMessage.new_user "hello" "zheng").encode.lookupKey "name" =
      some (Json.str "zheng") :=
  ⟨by decide, C4_name_normalization "hello" "zheng" (by decide)⟩

/-- C5: `ToolChoice` has exactly the three serialization shapes, and inside a
request the encoded `tool_choice` field is that shape whatever else is set. -/
theorem C5_tool_choice_shapes (nm : String) (t : ToolType) (r : ChatCompletionRequest)
    (c : ToolChoice) (h : r.tool_choice = some c) :
    ToolChoice.encode ToolChoice.None = Json.str "none" ∧
    ToolChoice.encode ToolChoice.Auto = Json.str "auto" ∧
    ToolChoice.encode (ToolChoice.Function t nm) =
      Json.obj [("function",
        Json.obj [("type", Json.str "function"), ("name", Json.str nm)])] ∧
    r.encode.lookupKey "tool_choice" = some c.encode := by
  refine ⟨rfl, rfl, ?_, ?_⟩
  · cases t
    rfl
  · show List.lookup "tool_choice" r.encodeFields = some c.encode
    unfold ChatCompletionRequest.encodeFields
    simp only [List.append_assoc, List.cons_append, List.nil_append]
    rw [lookup_cons_ne "tool_choice" "messages" _ _ (by decide),
      lookup_cons_ne "tool_choice" "model" _ _ (by decide),
      lookup_optField_skip "tool_choice" "frequency_penalty" _ _ (by decide),
      lookup_optField_skip "tool_choice" "max_tokens" _ _ (by decide),
      lookup_optField_skip "tool_choice" "n" _ _ (by decide),
      lookup_optField_skip "tool_choice" "presence_penalty" _ _ (by decide),
      lookup_optField_skip "tool_choice" "response_format" _ _ (by decide),
      lookup_optField_skip "tool_choice" "seed" _ _ (by decide),
      lookup_optField_skip "tool_choice" "stop" _ _ (by decide),
      lookup_optField_skip "tool_choice" "stream" _ _ (by decide),
      lookup_optField_skip "tool_choice" "temperature" _ _ (by decide),
      lookup_optField_skip "tool_choice" "top_p" _ _ (by decide),
      lookup_vecField_skip "tool_choice" "tools" _ _ (by decide), h]
    simp [optField, List.lookup]

/-- C5 witness: the theorem at the repository's own test request. -/
theorem C5_tool_choice_shapes_witness :
    ToolChoice.encode ToolChoice.None = Json.str "none" ∧
    ToolChoice.encode ToolChoice.Auto = Json.str "auto" ∧
    ToolChoice.encode (ToolChoice.Function ToolType.Function "my_function") =
      Json.obj [("function",
        Json.obj [("type", Json.str "function"), ("name", Json.str "my_function")])] ∧
    demoRequest.encode.lookupKey "tool_choice" =
      some (ToolChoice.encode (ToolChoice.Function ToolType.Function "my_function")) :=
  C5_tool_choice_shapes "my_function" ToolType.Function demoRequest
    (ToolChoice.Function ToolType.Function "my_function") rfl

/-- C6: building with only `messages` set yields a request that encodes to an
object with exactly the `messages` key and the `model` key, the latter bound
to the default model's wire string, which differs from the symbolic variant
name. -/
theorem C6_only_messages_encoding (msgs : List ChatCompletionMessage) :
    ∃ r, ChatCompletionRequestBuilder.build { messages := some msgs } = Except.ok r ∧
      r.encode = Json.obj
        [("messages", Json.arr (msgs.map ChatCompletionMessage.encode)),
         ("model", Json.str "gpt-3.5-turbo-1106")] ∧
      ChatCompleteModel.toWire ChatCompleteModel.GPT3Turbo = "gpt-3.5-turbo-1106" ∧
      ChatCompleteModel.toWire ChatCompleteModel.GPT3Turbo ≠ "GPT3Turbo" := by
  refine ⟨_, rfl, rfl, rfl, by decide⟩

/-- C6 witness: the default-model wire string, extracted from the theorem at
the empty message sequence. -/
theorem C6_only_messages_encoding_witness :
    ChatCompleteModel.toWire ChatCompleteModel.GPT3Turbo = "gpt-3.5-turbo-1106" := by
  obtain ⟨r, -, -, h3, -⟩ := C6_only_messages_encoding []
  exact h3

/-- C7: an assistant message with an empty `tool_calls` sequence encodes with
no `tool_calls` key at all, both standalone and inside the role-tagged
message union. -/
theorem C7_empty_tool_calls_omitted (m : AssistantMessage) (hm : m.tool_calls = []) :
    (ChatCompletionMessage.encode (ChatCompletionMessage.Assistant m)).lookupKey
      "tool_calls" = none ∧
    (AssistantMessage.encode m).lookupKey "tool_calls" = none := by
  have h := assistant_encodeFields_no_tc m hm
  constructor
  · show List.lookup "tool_calls" (("role", Json.str "assistant") :: m.encodeFields) = none
    rw [lookup_cons_ne "tool_calls" "role" _ _ (by decide), h]
  · exact h

/-- C7 witness: the theorem at a concrete assistant message. -/
theorem C7_empty_tool_calls_omitted_witness :
    (ChatCompletionMessage.encode (ChatCompletionMessage.Assistant
      { content := "hi", name := none, tool_calls := [] })).lookupKey "tool_calls" = none ∧
    (AssistantMessage.encode
      { content := "hi", name := none, tool_calls := [] }).lookupKey "tool_calls" = none :=
  C7_empty_tool_calls_omitted { content := "hi", name := none, tool_calls := [] } rfl

/-- C8: every encoded request carries a `messages` key bound to the encoded
message array; an empty sequence encodes as the empty array, never omitted. -/
theorem C8_messages_always_present (r : ChatCompletionRequest) :
    r.encode.lookupKey "messages" =
      some (Json.arr (r.messages.map ChatCompletionMessage.encode)) ∧
    (r.messages = [] → r.encode.lookupKey "messages" = some (Json.arr [])) := by
  have h : r.encode.lookupKey "messages" =
      some (Json.arr (r.messages.map ChatCompletionMessage.encode)) := by
    show List.lookup "messages" r.encodeFields = _
    unfold ChatCompletionRequest.encodeFields
    simp [List.lookup]
  exact ⟨h, fun he => by rw [h, he]; rfl⟩

/-- C8 witness: the theorem at a request with an empty message sequence. -/
theorem C8_messages_always_present_witness :
    demoRequest.encode.lookupKey "messages" = some (Json.arr []) :=
  (C8_messages_always_present demoRequest).2 rfl

/-- C9: a response object that decodes successfully still decodes to the same
value after a field with any non-modeled name is inserted anywhere in it. -/
theorem C9_unknown_fields_ignored (l1 l2 : List (String × Json)) (k : String) (v : Json)
    (r : ChatCompletionResponse) (hk : k ∉ responseFieldNames)
    (hdec : ChatCompletionResponse.decode (Json.obj (l1 ++ l2)) = Except.ok r) :
    ChatCompletionResponse.decode (Json.obj (l1 ++ (k, v) :: l2)) = Except.ok r := by
  show ChatCompletionResponse.decodeFields (l1 ++ (k, v) :: l2) = Except.ok r
  rw [decodeFields_ignores_unknown l1 l2 k v hk]
  exact hdec

/-- C9 witness: appending an unknown field to the concrete full response. -/
theorem C9_unknown_fields_ignored_witness :
    ChatCompletionResponse.decode
      (Json.obj (respFullFields ++ [("x_extra", Json.str "ignored")])) =
      Except.ok respFullDecoded :=
  C9_unknown_fields_ignored respFullFields [] "x_extra" (Json.str "ignored")
    respFullDecoded (by decide) (by rfl)

/-- C10: decoding an assistant-message object fails whenever `tool_calls` is
absent, yet encoding omits `tool_calls` when it is empty; hence
encode-then-decode does not round-trip an assistant message with no tool
calls. -/
theorem C10_assistant_roundtrip_fails (fs : List (String × Json)) (m : AssistantMessage)
    (hf : List.lookup "tool_calls" fs = none) (hm : m.tool_calls = []) :
    (∀ a, AssistantMessage.decode (Json.obj fs) ≠ Except.ok a) ∧
    List.lookup "tool_calls" m.encodeFields = none ∧
    (∀ a, AssistantMessage.decode (AssistantMessage.encode m) ≠ Except.ok a) := by
  refine ⟨assistant_decode_missing_tc fs hf, assistant_encodeFields_no_tc m hm, ?_⟩
  exact assistant_decode_missing_tc m.encodeFields (assistant_encodeFields_no_tc m hm)

/-- C10 witness: the theorem at a concrete assistant message and object. -/
theorem C10_assistant_roundtrip_fails_witness :
    AssistantMessage.decode (Json.obj [("content", Json.str "hi")]) ≠
      Except.ok { content := "hi", name := none, tool_calls := [] } ∧
    AssistantMessage.decode (AssistantMessage.encode
      { content := "hi", name := none, tool_calls := [] }) ≠
      Except.ok { content := "hi", name := none, tool_calls := [] } := by
  have h := C10_assistant_roundtrip_fails [("content", Json.str "hi")]
    { content := "hi", name := none, tool_calls := [] } rfl rfl
  exact ⟨h.1 _, h.2.2 _⟩
